import Mathlib

/-
Verification of the authentication-flow orchestration layer of the
kratos-chi-ollama gateway: session extraction, auth middleware, the
Kratos client wrapper, flow-body builders, the flow handlers and the
recovery continuation resolver, shallowly embedded from the Go source.
-/

/-! ## Go string helpers (strings.HasPrefix, strings.TrimPrefix, strings.TrimSpace) -/

/-- Models strings.HasPrefix from the Go standard library. -/
def goStringHasStart (pre s : String) : Bool :=
  pre.data.isPrefixOf s.data

/-- Models strings.TrimPrefix from the Go standard library. -/
def goStringDropStart (pre s : String) : String :=
  if goStringHasStart pre s then ⟨s.data.drop pre.data.length⟩ else s

/-- Models strings.TrimSpace from the Go standard library: removes leading
and trailing whitespace. -/
def goTrimSpace (s : String) : String :=
  ⟨((s.data.dropWhile Char.isWhitespace).reverse.dropWhile Char.isWhitespace).reverse⟩

/-! ## Request headers and the session extractor (internal/middleware/auth.go) -/

/-- The two credential-bearing request headers read by the extractor.
A Go http.Header Get returns the empty string when the header is absent,
so absence is represented by the empty string, exactly as the code sees it. -/
structure Headers where
  xSessionToken : String
  authorization : String
deriving DecidableEq

/-- Embeds ExtractSessionToken (internal/middleware/auth.go, lines 22-35):
the X-Session-Token header when non-empty, else the remainder of an
Authorization header carrying the Bearer scheme, else the empty string. -/
def ExtractSessionToken (h : Headers) : String :=
  if h.xSessionToken ≠ "" then h.xSessionToken
  else if goStringHasStart "Bearer " h.authorization then
    goStringDropStart "Bearer " h.authorization
  else ""

/-! ## Application errors (pkg/errors) -/

/-- The closed error-kind enumeration of pkg/errors. -/
inductive ErrorCode where
  | validationErr
  | unauthorized
  | notFound
  | internalErr
  | badRequest
  | serviceUnavail
deriving DecidableEq

/-- AppError from pkg/errors: code, message, details and the HTTP status
written by WriteJSON. -/
structure AppError where
  code : ErrorCode
  message : String
  details : String
  httpStatus : Nat
deriving DecidableEq

def NewValidationError (message details : String) : AppError :=
  ⟨.validationErr, message, details, 400⟩

def NewUnauthorizedError (message : String) : AppError :=
  ⟨.unauthorized, message, "", 401⟩

def NewNotFoundError (resource : String) : AppError :=
  ⟨.notFound, resource ++ " not found", "", 404⟩

/-- NewInternalError takes a Go error value; the model carries it as an
optional message string (none for a nil error). -/
def NewInternalError (message : String) (err : Option String) : AppError :=
  ⟨.internalErr, message, err.getD "", 500⟩

def NewBadRequestError (message : String) : AppError :=
  ⟨.badRequest, message, "", 400⟩

def NewServiceUnavailableError (service details : String) : AppError :=
  ⟨.serviceUnavail, service ++ " is unavailable", details, 503⟩

/-- An HTTP response as observed by the client: the status written and,
when the body is the error envelope, the error code inside it. -/
structure HttpResponse where
  status : Nat
  errorCode : Option ErrorCode
deriving DecidableEq

/-- AppError.WriteJSON writes the HTTP status of the error and the error
envelope carrying its code. -/
def AppError.writeJSON (e : AppError) : HttpResponse :=
  ⟨e.httpStatus, some e.code⟩

/-! ## String lemmas for the extractor -/

theorem string_data_append (a b : String) : (a ++ b).data = a.data ++ b.data := by
  cases a; cases b; rfl

theorem goStringHasStart_append (pre t : String) :
    goStringHasStart pre (pre ++ t) = true := by
  unfold goStringHasStart
  rw [string_data_append]
  exact List.isPrefixOf_iff_prefix.mpr (List.prefix_append _ _)

theorem goStringDropStart_append (pre t : String) :
    goStringDropStart pre (pre ++ t) = t := by
  unfold goStringDropStart
  rw [goStringHasStart_append]
  simp only [if_pos rfl, ite_true]
  rw [string_data_append, List.drop_left]

/-- C3: ExtractSessionToken returns the X-Session-Token header value when
that header is present and non-empty; otherwise the suffix of an
Authorization header of the form Bearer token; otherwise the empty string,
and a malformed Authorization header (one not carrying the Bearer scheme)
yields the empty string. -/
theorem extractSessionToken_spec (h : Headers) :
    (h.xSessionToken ≠ "" → ExtractSessionToken h = h.xSessionToken) ∧
    (h.xSessionToken = "" → ∀ t : String, h.authorization = "Bearer " ++ t →
      ExtractSessionToken h = t) ∧
    (h.xSessionToken = "" → goStringHasStart "Bearer " h.authorization = false →
      ExtractSessionToken h = "") := by
  refine ⟨fun hx => ?_, fun hx t ht => ?_, fun hx hm => ?_⟩
  · unfold ExtractSessionToken
    rw [if_pos hx]
  · unfold ExtractSessionToken
    rw [if_neg (by simp [hx]), ht, if_pos (by rw [goStringHasStart_append]),
      goStringDropStart_append]
  · unfold ExtractSessionToken
    rw [if_neg (by simp [hx]), if_neg (by simp [hm])]

/-- Witness for C3: concrete evaluations through the theorem. -/
theorem extractSessionToken_spec_witness :
    ExtractSessionToken ⟨"tok1", "Bearer zzz"⟩ = "tok1" ∧
    ExtractSessionToken ⟨"", "Bearer abc"⟩ = "abc" ∧
    ExtractSessionToken ⟨"", "Basic abc"⟩ = "" :=
  ⟨(extractSessionToken_spec ⟨"tok1", "Bearer zzz"⟩).1 (by decide),
   (extractSessionToken_spec ⟨"", "Bearer abc"⟩).2.1 rfl "abc" (by decide),
   (extractSessionToken_spec ⟨"", "Basic abc"⟩).2.2 rfl (by decide)⟩

/-! ## Sessions and the Kratos session validator (internal/auth/kratos.go) -/

/-- An Ory session record; only identity is needed to track which session
flows through the middleware. -/
structure Session where
  id : String
deriving DecidableEq

/-- Outcome of the providers ToSession call: a session, or an error carrying
the HTTP response status when a response was received (none models a nil
response, e.g. the provider was unreachable). -/
inductive ToSessionResult where
  | ok (s : Session)
  | err (respStatus : Option Nat)
deriving DecidableEq

/-- The three error shapes ValidateSession can produce, keyed by the message
the source formats: the local empty-token rejection, the unauthorized
classification of a 401 response, and the generic wrap of any other failure. -/
inductive SessionErr where
  | tokenRequired
  | unauthorizedSession
  | validateFailed
deriving DecidableEq

/-- Embeds KratosClient.ValidateSession (internal/auth/kratos.go, lines
39-56). The provider call is abstracted as a function from token to
ToSessionResult; the second component counts network calls issued. -/
def ValidateSession (toSession : String → ToSessionResult) (sessionToken : String) :
    Except SessionErr Session × Nat :=
  if sessionToken = "" then (.error .tokenRequired, 0)
  else
    match toSession sessionToken with
    | .ok s => (.ok s, 1)
    | .err respStatus =>
      if respStatus = some 401 then (.error .unauthorizedSession, 1)
      else (.error .validateFailed, 1)

/-- C8: ValidateSession with an empty credential fails locally with no
network call; for a non-empty credential on which the provider fails, a 401
response is classified as the unauthorized failure and any other failure as
the generic validation failure (one network call in either case). -/
theorem validateSession_spec (toSession : String → ToSessionResult) (tok : String) :
    (tok = "" → ValidateSession toSession tok = (.error .tokenRequired, 0)) ∧
    (tok ≠ "" → toSession tok = .err (some 401) →
      ValidateSession toSession tok = (.error .unauthorizedSession, 1)) ∧
    (∀ st : Option Nat, tok ≠ "" → toSession tok = .err st → st ≠ some 401 →
      ValidateSession toSession tok = (.error .validateFailed, 1)) := by
  refine ⟨fun h => ?_, fun h hp => ?_, fun st h hp hne => ?_⟩
  · unfold ValidateSession
    rw [if_pos h]
  · unfold ValidateSession
    rw [if_neg h, hp]
    simp
  · unfold ValidateSession
    rw [if_neg h, hp]
    simp [hne]

/-- Witness for C8: concrete evaluations through the theorem. -/
theorem validateSession_spec_witness :
    ValidateSession (fun _ => .err (some 401)) "" = (.error .tokenRequired, 0) ∧
    ValidateSession (fun _ => .err (some 401)) "t" = (.error .unauthorizedSession, 1) ∧
    ValidateSession (fun _ => .err (some 503)) "t" = (.error .validateFailed, 1) :=
  ⟨(validateSession_spec (fun _ => .err (some 401)) "").1 rfl,
   (validateSession_spec (fun _ => .err (some 401)) "t").2.1 (by decide) rfl,
   (validateSession_spec (fun _ => .err (some 503)) "t").2.2 (some 503) (by decide) rfl
     (by decide)⟩

/-! ## Request context and the auth middleware (internal/middleware/auth.go) -/

/-- The per-request context bag: the value stored under SessionContextKey,
when present. -/
structure Ctx where
  session : Option Session
deriving DecidableEq

/-- An inbound request: its credential headers and its context. -/
structure Request where
  headers : Headers
  ctx : Ctx
deriving DecidableEq

/-- Embeds GetSessionFromContext (internal/middleware/auth.go, lines 38-41):
the checked type assertion on the context value yields the session and an
ok flag. -/
def GetSessionFromContext (ctx : Ctx) : Option Session × Bool :=
  match ctx.session with
  | some s => (some s, true)
  | none => (none, false)

/-- Embeds AuthMiddleware (internal/middleware/auth.go, lines 44-65).
The validator abstracts auth.SessionValidator (error modelled as Unit).
The result pairs the response written with the list of requests the
downstream handler was invoked on, in order, so invocation count and the
context handed downstream are both observable. -/
def AuthMiddleware (validator : String → Except Unit Session)
    (next : Request → HttpResponse) (r : Request) : HttpResponse × List Request :=
  let sessionToken := ExtractSessionToken r.headers
  if sessionToken = "" then
    ((NewUnauthorizedError "missing session token").writeJSON, [])
  else
    match validator sessionToken with
    | .error _ => ((NewUnauthorizedError "invalid or expired session").writeJSON, [])
    | .ok session =>
      let r2 : Request := { r with ctx := { session := some session } }
      (next r2, [r2])

/-- C4: under the mandatory auth middleware, an empty or rejected credential
means the downstream handler is never invoked and the status written is 401;
an accepted credential means the downstream handler is invoked exactly once,
its response is the one returned, and the resolved session is retrievable
from the context of the request it receives. -/
theorem authMiddleware_spec (validator : String → Except Unit Session)
    (next : Request → HttpResponse) (r : Request) :
    (ExtractSessionToken r.headers = "" →
      AuthMiddleware validator next r =
        ((NewUnauthorizedError "missing session token").writeJSON, []) ∧
      (AuthMiddleware validator next r).1.status = 401) ∧
    (ExtractSessionToken r.headers ≠ "" →
      validator (ExtractSessionToken r.headers) = .error () →
      AuthMiddleware validator next r =
        ((NewUnauthorizedError "invalid or expired session").writeJSON, []) ∧
      (AuthMiddleware validator next r).1.status = 401) ∧
    (∀ s : Session, ExtractSessionToken r.headers ≠ "" →
      validator (ExtractSessionToken r.headers) = .ok s →
      ∃ r2 : Request, AuthMiddleware validator next r = (next r2, [r2]) ∧
        GetSessionFromContext r2.ctx = (some s, true)) := by
  refine ⟨fun h => ?_, fun h hv => ?_, fun s h hv => ?_⟩
  · constructor <;> simp [AuthMiddleware, h, AppError.writeJSON, NewUnauthorizedError]
  · constructor <;> simp [AuthMiddleware, h, hv, AppError.writeJSON, NewUnauthorizedError]
  · refine ⟨{ r with ctx := { session := some s } }, ?_, rfl⟩
    simp [AuthMiddleware, h, hv]

/-- Witness for C4: concrete evaluations through the theorem. -/
theorem authMiddleware_spec_witness :
    (AuthMiddleware (fun _ => .ok ⟨"s1"⟩) (fun _ => ⟨200, none⟩)
        ⟨⟨"", ""⟩, ⟨none⟩⟩).1.status = 401 ∧
    (AuthMiddleware (fun _ => .error ()) (fun _ => ⟨200, none⟩)
        ⟨⟨"bad", ""⟩, ⟨none⟩⟩).1.status = 401 ∧
    ∃ r2 : Request,
      AuthMiddleware (fun _ => .ok ⟨"s1"⟩) (fun _ => ⟨200, none⟩)
          ⟨⟨"good", ""⟩, ⟨none⟩⟩ = (⟨200, none⟩, [r2]) ∧
      GetSessionFromContext r2.ctx = (some ⟨"s1"⟩, true) :=
  ⟨((authMiddleware_spec (fun _ => .ok ⟨"s1"⟩) (fun _ => ⟨200, none⟩)
      ⟨⟨"", ""⟩, ⟨none⟩⟩).1 (by decide)).2,
   ((authMiddleware_spec (fun _ => .error ()) (fun _ => ⟨200, none⟩)
      ⟨⟨"bad", ""⟩, ⟨none⟩⟩).2.1 (by decide) rfl).2,
   (authMiddleware_spec (fun _ => .ok ⟨"s1"⟩) (fun _ => ⟨200, none⟩)
      ⟨⟨"good", ""⟩, ⟨none⟩⟩).2.2 ⟨"s1"⟩ (by decide) rfl⟩

/-! ## Logout handler (handlers auth.go, token-based variant) -/

/-- The body type of PerformNativeLogout in the Ory SDK. -/
structure PerformNativeLogoutBody where
  sessionToken : String
deriving DecidableEq

/-- Embeds BuildNewPerformNativeLogoutBody (internal/auth). -/
def BuildNewPerformNativeLogoutBody (sessionToken : String) : PerformNativeLogoutBody :=
  ⟨sessionToken⟩

/-- Outcome of the Logout handler: an error envelope, or the success
message payload. -/
inductive LogoutOut where
  | errorOut (e : AppError)
  | successOut (message : String)
deriving DecidableEq

/-- Embeds the token-based Logout handler (handlers auth.go, lines 616-631
of the combined handler sources). PerformNativeLogout is abstracted as a
function on the logout body; the second component counts provider logout
calls issued. -/
def Logout (performNativeLogout : PerformNativeLogoutBody → Except Unit Unit)
    (r : Request) : LogoutOut × Nat :=
  let sessionToken := ExtractSessionToken r.headers
  if sessionToken = "" then
    (.errorOut (NewUnauthorizedError "no session token provided"), 0)
  else
    let sessionBody := BuildNewPerformNativeLogoutBody sessionToken
    match performNativeLogout sessionBody with
    | .error _ => (.errorOut (NewInternalError "failed to logout" (some "logout error")), 1)
    | .ok _ => (.successOut "Successfully logged out", 1)

/-- C9: a logout request carrying no extractable session credential gets a
client error response (4xx, not a success), and the provider logout
operation is never invoked. -/
theorem logout_no_credential_spec
    (performNativeLogout : PerformNativeLogoutBody → Except Unit Unit) (r : Request)
    (h : ExtractSessionToken r.headers = "") :
    Logout performNativeLogout r =
      (.errorOut (NewUnauthorizedError "no session token provided"), 0) ∧
    (∃ e : AppError, (Logout performNativeLogout r).1 = .errorOut e ∧
      400 ≤ e.httpStatus ∧ e.httpStatus < 500) := by
  have hl : Logout performNativeLogout r =
      (.errorOut (NewUnauthorizedError "no session token provided"), 0) := by
    simp [Logout, h]
  exact ⟨hl, ⟨NewUnauthorizedError "no session token provided", by rw [hl], by decide, by decide⟩⟩

/-- Witness for C9: a request with neither credential header. -/
theorem logout_no_credential_spec_witness :
    Logout (fun _ => .ok ()) ⟨⟨"", ""⟩, ⟨none⟩⟩ =
      (.errorOut (NewUnauthorizedError "no session token provided"), 0) :=
  (logout_no_credential_spec (fun _ => .ok ()) ⟨⟨"", ""⟩, ⟨none⟩⟩ (by decide)).1

/-! ## The first-variant WhoAmI handler and the panic barrier -/

/-- Result of running a handler body that may hit an unrecovered fault:
either a panic propagates or a response is produced. -/
inductive HandlerStep where
  | panicked
  | normal (resp : HttpResponse)
deriving DecidableEq

/-- Embeds the first source variant of WhoAmI
(internal/handlers/auth.go, lines 184-187): the context value under
SessionContextKey is type-asserted without the ok flag, so a request whose
context carries no session makes the assertion panic; otherwise the session
is written with status 200. -/
def WhoAmIFirstVariant (r : Request) : HandlerStep :=
  match r.ctx.session with
  | some _ => .normal ⟨200, none⟩
  | none => .panicked

/-- Embeds Recoverer (internal/middleware/auth.go, lines 95-104): a panic
from the wrapped handler is caught and converted to the internal-error
response. -/
def Recoverer (next : Request → HandlerStep) (r : Request) : HttpResponse :=
  match next r with
  | .normal resp => resp
  | .panicked => (NewInternalError "internal server error" none).writeJSON

/-- C10: a request reaching the first-variant WhoAmI handler with no session
in its context never produces a normal return (the unchecked type assertion
panics), and behind the Recoverer barrier the observed response is the 500
INTERNAL_ERROR envelope, not a 401. -/
theorem whoAmIFirstVariant_panic_spec (r : Request) (h : r.ctx.session = none) :
    WhoAmIFirstVariant r = .panicked ∧
    (∀ resp : HttpResponse, WhoAmIFirstVariant r ≠ .normal resp) ∧
    Recoverer WhoAmIFirstVariant r = ⟨500, some .internalErr⟩ ∧
    (Recoverer WhoAmIFirstVariant r).status ≠ 401 := by
  have hp : WhoAmIFirstVariant r = .panicked := by
    simp [WhoAmIFirstVariant, h]
  refine ⟨hp, fun resp hc => by rw [hp] at hc; exact HandlerStep.noConfusion hc, ?_, ?_⟩
  · simp [Recoverer, hp, NewInternalError, AppError.writeJSON]
  · simp [Recoverer, hp, NewInternalError, AppError.writeJSON]

/-- Witness for C10: a concrete request whose context carries no session. -/
theorem whoAmIFirstVariant_panic_spec_witness :
    WhoAmIFirstVariant ⟨⟨"tok", ""⟩, ⟨none⟩⟩ = .panicked ∧
    Recoverer WhoAmIFirstVariant ⟨⟨"tok", ""⟩, ⟨none⟩⟩ = ⟨500, some .internalErr⟩ :=
  ⟨(whoAmIFirstVariant_panic_spec ⟨⟨"tok", ""⟩, ⟨none⟩⟩ rfl).1,
   (whoAmIFirstVariant_panic_spec ⟨⟨"tok", ""⟩, ⟨none⟩⟩ rfl).2.2.1⟩

/-! ## Verification-code submission (validation + handler) -/

/-- The decoded JSON body of a verification-code request: each field is
present as a string or absent. The whole body is wrapped in Option by the
caller, none standing for malformed JSON. -/
structure VerificationCodeBody where
  email : Option String
  code : Option String
deriving DecidableEq

/-- The validated DTO produced by the verification-code validator. -/
structure VerificationCodeInput where
  email : String
  code : String
deriving DecidableEq

/-- Modelled from the spec: the implementation of
validation.ValidateVerificationCodeInput is not among the provided sources
(only its declaration, its documented validation rules and its unit tests
are). Per those rules and tests: malformed JSON is rejected; the email must
be present and non-empty after trimming and pass the email-format check;
the code must be present, non-empty after trimming and at least 6
characters; trimmed values are returned. The email-format predicate
(net/mail parsing) is abstracted as a parameter. -/
def ValidateVerificationCodeInput (isValidEmail : String → Bool)
    (body : Option VerificationCodeBody) : Except AppError VerificationCodeInput :=
  match body with
  | none => .error (NewValidationError "Invalid JSON body" "invalid JSON")
  | some b =>
    match b.email with
    | none => .error (NewValidationError "email is required" "")
    | some e =>
      let email := goTrimSpace e
      if email = "" then .error (NewValidationError "email is required" "")
      else if isValidEmail email = false then
        .error (NewValidationError "invalid email format" "")
      else
        match b.code with
        | none => .error (NewValidationError "code is required" "")
        | some c =>
          let code := goTrimSpace c
          if code = "" then .error (NewValidationError "code is required" "")
          else if code.length < 6 then
            .error (NewValidationError "code must be at least 6 characters" "")
          else .ok ⟨email, code⟩

/-- Embeds validation.ValidateFlowID (internal/validation): a flow ID blank
after trimming is a validation error. -/
def ValidateFlowID (flowID : String) : Option AppError :=
  if goTrimSpace flowID = "" then some (NewValidationError "flow parameter is required" "")
  else none

/-- The code-method verification payload of the Ory SDK (the single variant
populated by this code base). -/
structure UpdateVerificationFlowWithCodeMethod where
  method : String
  email : Option String
  code : Option String
deriving DecidableEq

/-- Embeds auth.BuildCodeVerificationBodySubmit. -/
def BuildCodeVerificationBodySubmit (email code : String) :
    UpdateVerificationFlowWithCodeMethod :=
  ⟨"code", some email, some code⟩

/-- Embeds auth.BuildCodeVerificationBody (request step: email only). -/
def BuildCodeVerificationBody (email : String) : UpdateVerificationFlowWithCodeMethod :=
  ⟨"code", some email, none⟩

/-- A provider verification flow object; opaque payload identified by id. -/
structure VerificationFlow where
  id : String
deriving DecidableEq

/-- Outcome of the SubmitVerificationCode handler. -/
inductive VerificationOut where
  | errorOut (e : AppError)
  | successOut (flow : VerificationFlow)
deriving DecidableEq

/-- Embeds the SubmitVerificationCode handler (handlers auth.go): flow-ID
validation, body validation, then the provider call, whose rejection is
classified as a bad request. UpdateVerificationFlow is abstracted as a
function; the second component counts provider calls issued. -/
def SubmitVerificationCode
    (updateVerificationFlow :
      String → UpdateVerificationFlowWithCodeMethod → Except Unit VerificationFlow)
    (isValidEmail : String → Bool)
    (flowID : String) (body : Option VerificationCodeBody) : VerificationOut × Nat :=
  match ValidateFlowID flowID with
  | some e => (.errorOut e, 0)
  | none =>
    match ValidateVerificationCodeInput isValidEmail body with
    | .error e => (.errorOut e, 0)
    | .ok input =>
      let verificationBody := BuildCodeVerificationBodySubmit input.email input.code
      match updateVerificationFlow flowID verificationBody with
      | .error _ => (.errorOut (NewBadRequestError "invalid or expired verification code"), 1)
      | .ok flow => (.successOut flow, 1)

/-- Every error the verification-code validator can produce is a
VALIDATION_ERROR. -/
theorem validateVerificationCodeInput_error_code (isValidEmail : String → Bool)
    (body : Option VerificationCodeBody) (e : AppError)
    (h : ValidateVerificationCodeInput isValidEmail body = .error e) :
    e.code = .validationErr ∧ e.httpStatus = 400 := by
  unfold ValidateVerificationCodeInput at h
  simp only [NewValidationError] at h
  repeat' split at h
  all_goals first
    | (injection h with h2; rw [← h2]; exact ⟨rfl, rfl⟩)
    | exact absurd h (by simp)

/-- C5: a verification-code submission that passes flow-ID and body
validation and is then rejected by the provider yields the BAD_REQUEST
error (HTTP 400), never INTERNAL_ERROR (HTTP 500). -/
theorem submitVerificationCode_provider_reject_spec
    (updateVerificationFlow :
      String → UpdateVerificationFlowWithCodeMethod → Except Unit VerificationFlow)
    (isValidEmail : String → Bool) (flowID : String)
    (body : Option VerificationCodeBody) (input : VerificationCodeInput)
    (hf : ValidateFlowID flowID = none)
    (hv : ValidateVerificationCodeInput isValidEmail body = .ok input)
    (hp : updateVerificationFlow flowID
      (BuildCodeVerificationBodySubmit input.email input.code) = .error ()) :
    SubmitVerificationCode updateVerificationFlow isValidEmail flowID body =
      (.errorOut (NewBadRequestError "invalid or expired verification code"), 1) ∧
    ∃ e : AppError,
      (SubmitVerificationCode updateVerificationFlow isValidEmail flowID body).1 =
        .errorOut e ∧
      e.code = .badRequest ∧ e.httpStatus = 400 ∧
      e.code ≠ .internalErr ∧ e.httpStatus ≠ 500 := by
  have hmain : SubmitVerificationCode updateVerificationFlow isValidEmail flowID body =
      (.errorOut (NewBadRequestError "invalid or expired verification code"), 1) := by
    simp [SubmitVerificationCode, hf, hv, hp]
  refine ⟨hmain, NewBadRequestError "invalid or expired verification code",
    by rw [hmain], rfl, rfl, by decide, by decide⟩

/-- Witness for C5: a well-formed 6-character code the provider rejects. -/
theorem submitVerificationCode_provider_reject_spec_witness :
    SubmitVerificationCode (fun _ _ => .error ()) (fun _ => true) "f1"
        (some ⟨some "a@b.com", some "123456"⟩) =
      (.errorOut (NewBadRequestError "invalid or expired verification code"), 1) :=
  (submitVerificationCode_provider_reject_spec (fun _ _ => .error ()) (fun _ => true)
    "f1" (some ⟨some "a@b.com", some "123456"⟩) ⟨"a@b.com", "123456"⟩ rfl rfl rfl).1

/-- C7: a verification-code submission whose body fails local validation is
answered with a VALIDATION_ERROR and the provider is never called; in
particular a code shorter than 6 characters (with an otherwise valid body)
fails validation with exactly that error. -/
theorem submitVerificationCode_validation_spec
    (updateVerificationFlow :
      String → UpdateVerificationFlowWithCodeMethod → Except Unit VerificationFlow)
    (isValidEmail : String → Bool) (flowID : String)
    (body : Option VerificationCodeBody) :
    (∀ err : AppError, ValidateVerificationCodeInput isValidEmail body = .error err →
      ∃ e2 : AppError,
        SubmitVerificationCode updateVerificationFlow isValidEmail flowID body =
          (.errorOut e2, 0) ∧
        e2.code = .validationErr ∧ e2.httpStatus = 400) ∧
    (∀ (b : VerificationCodeBody) (em c : String), body = some b →
      b.email = some em → goTrimSpace em ≠ "" → isValidEmail (goTrimSpace em) = true →
      b.code = some c → goTrimSpace c ≠ "" → (goTrimSpace c).length < 6 →
      ValidateVerificationCodeInput isValidEmail body =
        .error (NewValidationError "code must be at least 6 characters" "")) := by
  constructor
  · intro err herr
    cases hfid : ValidateFlowID flowID with
    | some e =>
      refine ⟨e, ?_, ?_, ?_⟩
      · simp [SubmitVerificationCode, hfid]
      · unfold ValidateFlowID at hfid
        split at hfid
        · injection hfid with h2
          rw [← h2]; rfl
        · exact Option.noConfusion hfid
      · unfold ValidateFlowID at hfid
        split at hfid
        · injection hfid with h2
          rw [← h2]; rfl
        · exact Option.noConfusion hfid
    | none =>
      refine ⟨err, ?_, (validateVerificationCodeInput_error_code isValidEmail body err herr).1,
        (validateVerificationCodeInput_error_code isValidEmail body err herr).2⟩
      simp [SubmitVerificationCode, hfid, herr]
  · intro b em c hb hem hemne hvalid hc hcne hclen
    subst hb
    obtain ⟨be, bc⟩ := b
    change be = some em at hem
    change bc = some c at hc
    subst hem
    subst hc
    simp [ValidateVerificationCodeInput, hemne, hvalid, hcne, hclen]

/-- Witness for C7: a 5-character code reaches the VALIDATION_ERROR branch
with zero provider calls. -/
theorem submitVerificationCode_validation_spec_witness :
    ∃ e2 : AppError,
      SubmitVerificationCode (fun _ _ => .error ()) (fun _ => true) "f1"
          (some ⟨some "a@b.com", some "12345"⟩) =
        (.errorOut e2, 0) ∧
      e2.code = .validationErr ∧ e2.httpStatus = 400 :=
  (submitVerificationCode_validation_spec (fun _ _ => .error ()) (fun _ => true) "f1"
    (some ⟨some "a@b.com", some "12345"⟩)).1
    (NewValidationError "code must be at least 6 characters" "")
    ((submitVerificationCode_validation_spec (fun _ _ => .error ()) (fun _ => true) "f1"
      (some ⟨some "a@b.com", some "12345"⟩)).2
      ⟨some "a@b.com", some "12345"⟩ "a@b.com" "12345" rfl rfl (by decide) rfl rfl
      (by decide) (by decide))

/-! ## Registration flow extraction (internal/auth, handlers auth.go) -/

/-- A UI node attribute value (a Go interface value): a string or anything
else; wrapped in Option by its holder, none standing for a nil value. -/
inductive UiValue where
  | str (s : String)
  | other
deriving DecidableEq

/-- The input-attribute record of a form-input UI node. GetRequired returns
false when the field is unset, hence the Option. -/
structure UiNodeInputAttributes where
  name : String
  nodeType : String
  required : Option Bool
  value : Option UiValue
deriving DecidableEq

/-- A provider UI node: input attributes when the node is a form input
(the UiNodeInputAttributes pointer), and the meta label text when the node
has a label. -/
structure UiNode where
  inputAttributes : Option UiNodeInputAttributes
  metaLabel : Option String
deriving DecidableEq

/-- A provider registration flow: id, the UI container action, method and
node list, and the expiry as the code reads it. -/
structure RegistrationFlow where
  id : String
  uiAction : String
  uiMethod : String
  uiNodes : List UiNode
  expiresAtIsZero : Bool
  expiresAtString : String
deriving DecidableEq

/-- The loop body of ExtractCSRFToken (internal/auth): the first input node
named csrf_token whose value is a string yields that string; a csrf_token
node with a non-string value is skipped, as in the source, where the failed
type assertion falls through and the loop continues. -/
def extractCSRFTokenNodes : List UiNode → String
  | [] => ""
  | node :: rest =>
    match node.inputAttributes with
    | some attrs =>
      if attrs.name = "csrf_token" then
        match attrs.value with
        | some (.str s) => s
        | _ => extractCSRFTokenNodes rest
      else extractCSRFTokenNodes rest
    | none => extractCSRFTokenNodes rest

/-- Embeds auth.ExtractCSRFToken for a registration flow. -/
def ExtractCSRFToken (flow : RegistrationFlow) : String :=
  extractCSRFTokenNodes flow.uiNodes

/-- One entry of the normalized fields list built by ExtractFormFields. -/
structure FormField where
  name : String
  fieldType : String
  required : Bool
  value : Option UiValue
  label : Option String
deriving DecidableEq

/-- Embeds auth.ExtractFormFields: one entry is appended per form-input
node, in order; non-input nodes contribute nothing. -/
def ExtractFormFields (flow : RegistrationFlow) : List FormField :=
  flow.uiNodes.filterMap fun node =>
    match node.inputAttributes with
    | some attrs =>
      some ⟨attrs.name, attrs.nodeType, attrs.required.getD false, attrs.value, node.metaLabel⟩
    | none => none

/-- The simplified registration response assembled by the handler. -/
structure RegistrationFlowResponse where
  flowID : String
  csrfToken : String
  expiresAt : String
  action : String
  method : String
  fields : List FormField
deriving DecidableEq

/-- Outcome of the CreateRegistrationFlow handler. -/
inductive RegistrationOut where
  | errorOut (e : AppError)
  | successOut (resp : RegistrationFlowResponse)
deriving DecidableEq

/-- Embeds the CreateRegistrationFlow handler (handlers auth.go): the
provider create call is abstracted as its result; a failure is mapped to
service-unavailable, a flow to the simplified response. -/
def CreateRegistrationFlow (createFlowResult : Except Unit RegistrationFlow) :
    RegistrationOut :=
  match createFlowResult with
  | .error _ => .errorOut (NewServiceUnavailableError "Kratos" "create error")
  | .ok flow =>
    .successOut
      { flowID := flow.id
        csrfToken := ExtractCSRFToken flow
        action := flow.uiAction
        method := flow.uiMethod
        fields := ExtractFormFields flow
        expiresAt := if flow.expiresAtIsZero = false then flow.expiresAtString else "" }

/-- Recognizes a form-input node named csrf_token. -/
def isCSRFInputNode (n : UiNode) : Bool :=
  match n.inputAttributes with
  | some attrs => attrs.name = "csrf_token"
  | none => false

theorem extractCSRFTokenNodes_of_no_csrf (nodes : List UiNode)
    (h : nodes.filter isCSRFInputNode = []) : extractCSRFTokenNodes nodes = "" := by
  induction nodes with
  | nil => rfl
  | cons node rest ih =>
    rw [List.filter_cons] at h
    by_cases hn : isCSRFInputNode node = true
    · rw [if_pos hn] at h
      exact absurd h (by simp)
    · rw [if_neg hn] at h
      cases ha : node.inputAttributes with
      | none => simp [extractCSRFTokenNodes, ha, ih h]
      | some attrs =>
        have hname : ¬ attrs.name = "csrf_token" := by
          unfold isCSRFInputNode at hn
          rw [ha] at hn
          simpa using hn
        simp [extractCSRFTokenNodes, ha, hname, ih h]

theorem extractCSRFTokenNodes_unique (nodes : List UiNode) (n : UiNode)
    (attrs : UiNodeInputAttributes) (s : String)
    (hf : nodes.filter isCSRFInputNode = [n])
    (ha : n.inputAttributes = some attrs)
    (hv : attrs.value = some (.str s)) :
    extractCSRFTokenNodes nodes = s := by
  induction nodes with
  | nil => exact absurd hf (by simp)
  | cons node rest ih =>
    rw [List.filter_cons] at hf
    by_cases hn : isCSRFInputNode node = true
    · rw [if_pos hn] at hf
      have hp : node = n ∧ rest.filter isCSRFInputNode = [] := by
        simpa using hf
      obtain ⟨rfl, hrest⟩ := hp
      have hname : attrs.name = "csrf_token" := by
        unfold isCSRFInputNode at hn
        rw [ha] at hn
        simpa using hn
      simp [extractCSRFTokenNodes, ha, hname, hv]
    · rw [if_neg hn] at hf
      cases hb : node.inputAttributes with
      | none => simp [extractCSRFTokenNodes, hb, ih hf]
      | some battrs =>
        have hname : ¬ battrs.name = "csrf_token" := by
          unfold isCSRFInputNode at hn
          rw [hb] at hn
          simpa using hn
        simp [extractCSRFTokenNodes, hb, hname, ih hf]

theorem extractFormFields_length (flow : RegistrationFlow) :
    (ExtractFormFields flow).length =
      flow.uiNodes.countP (fun n => n.inputAttributes.isSome) := by
  unfold ExtractFormFields
  induction flow.uiNodes with
  | nil => rfl
  | cons node rest ih =>
    rw [List.filterMap_cons, List.countP_cons]
    cases ha : node.inputAttributes with
    | none => simp [ha, ih]
    | some attrs => simp [ha, List.length_cons, ih]

/-- C6: for a registration flow containing exactly one form-input node
named csrf_token, whose value is the string s, the simplified response has
one fields entry per form-input node (non-input nodes excluded) and carries
s as its csrf token. -/
theorem createRegistrationFlow_fields_spec (flow : RegistrationFlow)
    (n : UiNode) (attrs : UiNodeInputAttributes) (s : String)
    (hf : flow.uiNodes.filter isCSRFInputNode = [n])
    (ha : n.inputAttributes = some attrs)
    (hv : attrs.value = some (.str s)) :
    ∃ resp : RegistrationFlowResponse,
      CreateRegistrationFlow (.ok flow) = .successOut resp ∧
      resp.fields.length = flow.uiNodes.countP (fun m => m.inputAttributes.isSome) ∧
      resp.csrfToken = s ∧ resp.flowID = flow.id := by
  refine ⟨_, rfl, ?_, ?_, rfl⟩
  · exact extractFormFields_length flow
  · exact extractCSRFTokenNodes_unique flow.uiNodes n attrs s hf ha hv

/-- Witness for C6: a three-node flow with one non-input node, a csrf input
node and an email input node. -/
theorem createRegistrationFlow_fields_spec_witness :
    ∃ resp : RegistrationFlowResponse,
      CreateRegistrationFlow (.ok ⟨"f1", "/act", "POST",
        [⟨none, some "heading"⟩,
         ⟨some ⟨"csrf_token", "hidden", some true, some (.str "c123")⟩, none⟩,
         ⟨some ⟨"traits.email", "email", some true, none⟩, some "Email"⟩],
        true, ""⟩) = .successOut resp ∧
      resp.fields.length = 2 ∧ resp.csrfToken = "c123" := by
  obtain ⟨resp, h1, h2, h3, _⟩ := createRegistrationFlow_fields_spec
    ⟨"f1", "/act", "POST",
      [⟨none, some "heading"⟩,
       ⟨some ⟨"csrf_token", "hidden", some true, some (.str "c123")⟩, none⟩,
       ⟨some ⟨"traits.email", "email", some true, none⟩, some "Email"⟩],
      true, ""⟩
    ⟨some ⟨"csrf_token", "hidden", some true, some (.str "c123")⟩, none⟩
    ⟨"csrf_token", "hidden", some true, some (.str "c123")⟩ "c123"
    (by decide) rfl rfl
  exact ⟨resp, h1, by rw [h2]; decide, h3⟩

/-! ## Recovery continuation resolver (handlers auth.go, internal/auth) -/

/-- The session-token continuation action payload of the Ory SDK. -/
structure ContinueWithSetOrySessionToken where
  orySessionToken : String
deriving DecidableEq

/-- The settings-flow reference carried by a settings-ui continuation
action. -/
structure ContinueWithSettingsUiFlow where
  id : String
deriving DecidableEq

/-- A continuation action as the code probes it: two optional variant
pointers, each checked independently. An action of any other kind has both
fields none. -/
structure ContinueWith where
  continueWithSetOrySessionToken : Option ContinueWithSetOrySessionToken
  continueWithSettingsUi : Option ContinueWithSettingsUiFlow
deriving DecidableEq

/-- A provider recovery flow: id and the continuation-action list (a nil or
empty Go slice is the empty list). -/
structure RecoveryFlow where
  id : String
  continueWith : List ContinueWith
deriving DecidableEq

/-- The code-method recovery payload of the Ory SDK. -/
structure UpdateRecoveryFlowWithCodeMethod where
  method : String
  code : Option String
  recoveryAddress : Option String
deriving DecidableEq

/-- Embeds auth.BuildCodeRecoveryBodySubmit: the code is sent, the new
password deliberately is not (it goes to the settings flow instead). -/
def BuildCodeRecoveryBodySubmit (code password : String) :
    UpdateRecoveryFlowWithCodeMethod :=
  ⟨"code", some code, none⟩

/-- Embeds auth.BuildCodeRecoveryBody (request step: address only). -/
def BuildCodeRecoveryBody (email : String) : UpdateRecoveryFlowWithCodeMethod :=
  ⟨"code", none, some email⟩

/-- The password-method settings payload of the Ory SDK. -/
structure UpdateSettingsFlowWithPasswordMethod where
  method : String
  password : String
deriving DecidableEq

/-- Embeds auth.BuildPasswordSettingsBody. -/
def BuildPasswordSettingsBody (password : String) : UpdateSettingsFlowWithPasswordMethod :=
  ⟨"password", password⟩

/-- A provider settings flow object. -/
structure SettingsFlow where
  id : String
deriving DecidableEq

/-- Embeds KratosClient.UpdateSettingsFlow (internal/auth, lines 957-973 of
the combined sources): the request is executed with an X-Session-Token
header only when the given token is non-empty. The network execution is
abstracted as the execute argument, whose third parameter is the optional
header. -/
def UpdateSettingsFlow
    (execute : String → UpdateSettingsFlowWithPasswordMethod → Option String →
      Except Unit SettingsFlow)
    (flowID : String) (body : UpdateSettingsFlowWithPasswordMethod)
    (sessionToken : String) : Except Unit SettingsFlow :=
  if sessionToken ≠ "" then execute flowID body (some sessionToken)
  else execute flowID body none

/-- One observed settings-flow submission: the flow id, the payload and the
session token string the handler authenticated it with. -/
structure SettingsCall where
  flowId : String
  body : UpdateSettingsFlowWithPasswordMethod
  sessionToken : String
deriving DecidableEq

/-- The validated DTO of a recovery-code submission. -/
structure RecoveryCodeInput where
  code : String
  password : String
deriving DecidableEq

/-- Outcome of the SubmitRecoveryCode handler. -/
inductive RecoveryOut where
  | errorOut (e : AppError)
  | successOut (flow : RecoveryFlow)
deriving DecidableEq

/-- The body of the first scan of SubmitRecoveryCode: each session-token
action overwrites the token accumulator; other actions leave it. -/
def tokenStep (sessionToken : String) (action : ContinueWith) : String :=
  match action.continueWithSetOrySessionToken with
  | some t => t.orySessionToken
  | none => sessionToken

/-- The first scan of SubmitRecoveryCode over flow.ContinueWith, starting
from the zero value of a Go string. -/
def extractContinueSessionToken (actions : List ContinueWith) : String :=
  actions.foldl tokenStep ""

/-- The second scan of SubmitRecoveryCode: for each settings-ui action a
password-update payload is submitted to the referenced settings flow with
the extracted token; the first failing submission aborts with the
internal error exactly as the early return in the source does. Returns the
submissions issued in order and the error, if any. -/
def processContinueWith
    (execute : String → UpdateSettingsFlowWithPasswordMethod → Option String →
      Except Unit SettingsFlow)
    (password sessionToken : String) :
    List ContinueWith → List SettingsCall × Option AppError
  | [] => ([], none)
  | action :: rest =>
    match action.continueWithSettingsUi with
    | some settingsFlow =>
      let settingsBody := BuildPasswordSettingsBody password
      match UpdateSettingsFlow execute settingsFlow.id settingsBody sessionToken with
      | .error _ =>
        ([⟨settingsFlow.id, settingsBody, sessionToken⟩],
         some (NewInternalError "failed to update password" (some "settings error")))
      | .ok _ =>
        let next := processContinueWith execute password sessionToken rest
        (⟨settingsFlow.id, settingsBody, sessionToken⟩ :: next.1, next.2)
    | none => processContinueWith execute password sessionToken rest

/-- Embeds the SubmitRecoveryCode handler (handlers auth.go, lines 390-442
of the combined sources), from the validated DTO onward: flow-ID check,
recovery submission (a rejection is a bad request), then the
continue-with stage when the action list is non-empty. The second
component lists the settings-flow submissions issued. -/
def SubmitRecoveryCode
    (updateRecoveryFlow : String → UpdateRecoveryFlowWithCodeMethod →
      Except Unit RecoveryFlow)
    (execute : String → UpdateSettingsFlowWithPasswordMethod → Option String →
      Except Unit SettingsFlow)
    (flowID : String) (input : RecoveryCodeInput) : RecoveryOut × List SettingsCall :=
  match ValidateFlowID flowID with
  | some e => (.errorOut e, [])
  | none =>
    match updateRecoveryFlow flowID (BuildCodeRecoveryBodySubmit input.code input.password) with
    | .error _ => (.errorOut (NewBadRequestError "invalid or expired recovery code"), [])
    | .ok flow =>
      if 0 < flow.continueWith.length then
        match processContinueWith execute input.password
            (extractContinueSessionToken flow.continueWith) flow.continueWith with
        | (calls, some e) => (.errorOut e, calls)
        | (calls, none) => (.successOut flow, calls)
      else (.successOut flow, [])

/-- Recognizes a continuation action granting a session token. -/
def hasSessionTokenAction (a : ContinueWith) : Bool :=
  a.continueWithSetOrySessionToken.isSome

/-- Recognizes a settings-ui continuation action. -/
def hasSettingsAction (a : ContinueWith) : Bool :=
  a.continueWithSettingsUi.isSome

theorem tokenStep_foldl_no_token (actions : List ContinueWith)
    (h : actions.filter hasSessionTokenAction = []) (acc : String) :
    actions.foldl tokenStep acc = acc := by
  induction actions generalizing acc with
  | nil => rfl
  | cons a rest ih =>
    rw [List.filter_cons] at h
    by_cases hn : hasSessionTokenAction a = true
    · rw [if_pos hn] at h
      exact absurd h (by simp)
    · rw [if_neg hn] at h
      have ha : a.continueWithSetOrySessionToken = none := by
        unfold hasSessionTokenAction at hn
        simpa using hn
      rw [List.foldl_cons]
      have hstep : tokenStep acc a = acc := by
        simp [tokenStep, ha]
      rw [hstep]
      exact ih h acc

theorem tokenStep_foldl_unique (actions : List ContinueWith)
    (ta : ContinueWith) (tk : ContinueWithSetOrySessionToken)
    (hta : actions.filter hasSessionTokenAction = [ta])
    (htk : ta.continueWithSetOrySessionToken = some tk) (acc : String) :
    actions.foldl tokenStep acc = tk.orySessionToken := by
  induction actions generalizing acc with
  | nil => exact absurd hta (by simp)
  | cons a rest ih =>
    rw [List.filter_cons] at hta
    by_cases hn : hasSessionTokenAction a = true
    · rw [if_pos hn] at hta
      have hp : a = ta ∧ rest.filter hasSessionTokenAction = [] := by
        simpa using hta
      obtain ⟨rfl, hrest⟩ := hp
      rw [List.foldl_cons]
      have hstep : tokenStep acc a = tk.orySessionToken := by
        simp [tokenStep, htk]
      rw [hstep]
      exact tokenStep_foldl_no_token rest hrest tk.orySessionToken
    · rw [if_neg hn] at hta
      have ha : a.continueWithSetOrySessionToken = none := by
        unfold hasSessionTokenAction at hn
        simpa using hn
      rw [List.foldl_cons]
      have hstep : tokenStep acc a = acc := by
        simp [tokenStep, ha]
      rw [hstep]
      exact ih hta acc

theorem processContinueWith_no_settings
    (execute : String → UpdateSettingsFlowWithPasswordMethod → Option String →
      Except Unit SettingsFlow)
    (password sessionToken : String) (actions : List ContinueWith)
    (h : actions.filter hasSettingsAction = []) :
    processContinueWith execute password sessionToken actions = ([], none) := by
  induction actions with
  | nil => rfl
  | cons a rest ih =>
    rw [List.filter_cons] at h
    by_cases hn : hasSettingsAction a = true
    · rw [if_pos hn] at h
      exact absurd h (by simp)
    · rw [if_neg hn] at h
      have ha : a.continueWithSettingsUi = none := by
        unfold hasSettingsAction at hn
        simpa using hn
      simp [processContinueWith, ha, ih h]

theorem processContinueWith_unique
    (execute : String → UpdateSettingsFlowWithPasswordMethod → Option String →
      Except Unit SettingsFlow)
    (password sessionToken : String) (actions : List ContinueWith)
    (sa : ContinueWith) (sf : ContinueWithSettingsUiFlow)
    (hsa : actions.filter hasSettingsAction = [sa])
    (hsf : sa.continueWithSettingsUi = some sf) :
    (processContinueWith execute password sessionToken actions).1 =
      [⟨sf.id, BuildPasswordSettingsBody password, sessionToken⟩] := by
  induction actions with
  | nil => exact absurd hsa (by simp)
  | cons a rest ih =>
    rw [List.filter_cons] at hsa
    by_cases hn : hasSettingsAction a = true
    · rw [if_pos hn] at hsa
      have hp : a = sa ∧ rest.filter hasSettingsAction = [] := by
        simpa using hsa
      obtain ⟨rfl, hrest⟩ := hp
      have hnone := processContinueWith_no_settings execute password sessionToken rest hrest
      cases hu : UpdateSettingsFlow execute sf.id (BuildPasswordSettingsBody password)
          sessionToken with
      | error e => simp [processContinueWith, hsf, hu]
      | ok v => simp [processContinueWith, hsf, hu, hnone]
    · rw [if_neg hn] at hsa
      have ha : a.continueWithSettingsUi = none := by
        unfold hasSettingsAction at hn
        simpa using hn
      simp [processContinueWith, ha, ih hsa]

/-- C1: when the recovery-submit response carries exactly one session-token
action and exactly one settings-flow action, the handler issues exactly one
settings-flow submission, for the referenced flow, carrying the password
payload and authenticated with the token extracted from the session-token
action; when the response carries neither kind of action, no settings-flow
submission is issued and the provider response is returned unchanged as the
success payload. -/
theorem submitRecoveryCode_continuation_spec
    (updateRecoveryFlow : String → UpdateRecoveryFlowWithCodeMethod →
      Except Unit RecoveryFlow)
    (execute : String → UpdateSettingsFlowWithPasswordMethod → Option String →
      Except Unit SettingsFlow)
    (flowID : String) (input : RecoveryCodeInput) (flow : RecoveryFlow)
    (hf : ValidateFlowID flowID = none)
    (hr : updateRecoveryFlow flowID
      (BuildCodeRecoveryBodySubmit input.code input.password) = .ok flow) :
    (∀ (ta sa : ContinueWith) (tk : ContinueWithSetOrySessionToken)
        (sf : ContinueWithSettingsUiFlow),
      flow.continueWith.filter hasSessionTokenAction = [ta] →
      ta.continueWithSetOrySessionToken = some tk →
      flow.continueWith.filter hasSettingsAction = [sa] →
      sa.continueWithSettingsUi = some sf →
      (SubmitRecoveryCode updateRecoveryFlow execute flowID input).2 =
        [⟨sf.id, BuildPasswordSettingsBody input.password, tk.orySessionToken⟩]) ∧
    (flow.continueWith.filter hasSessionTokenAction = [] →
     flow.continueWith.filter hasSettingsAction = [] →
      SubmitRecoveryCode updateRecoveryFlow execute flowID input =
        (.successOut flow, [])) := by
  constructor
  · intro ta sa tk sf hta htk hsa hsf
    have hne : 0 < flow.continueWith.length := by
      cases hcw : flow.continueWith with
      | nil => rw [hcw] at hsa; exact absurd hsa (by simp)
      | cons a r => simp [hcw]
    have htok : extractContinueSessionToken flow.continueWith = tk.orySessionToken :=
      tokenStep_foldl_unique flow.continueWith ta tk hta htk ""
    have hcalls := processContinueWith_unique execute input.password
      (extractContinueSessionToken flow.continueWith) flow.continueWith sa sf hsa hsf
    rcases hp : processContinueWith execute input.password
        (extractContinueSessionToken flow.continueWith) flow.continueWith with ⟨calls, err⟩
    have hc : calls =
        [⟨sf.id, BuildPasswordSettingsBody input.password,
          extractContinueSessionToken flow.continueWith⟩] := by
      rw [← hcalls, hp]
    rw [htok] at hp hc
    cases err with
    | none => simp [SubmitRecoveryCode, hf, hr, hne, htok, hp, hc]
    | some e => simp [SubmitRecoveryCode, hf, hr, hne, htok, hp, hc]
  · intro hnt hns
    by_cases hne : 0 < flow.continueWith.length
    · have hp := processContinueWith_no_settings execute input.password
        (extractContinueSessionToken flow.continueWith) flow.continueWith hns
      simp [SubmitRecoveryCode, hf, hr, hne, hp]
    · simp [SubmitRecoveryCode, hf, hr, hne]

/-- Witness for C1: a two-action response drives one authenticated settings
submission; an action-free response is returned unchanged. -/
theorem submitRecoveryCode_continuation_spec_witness :
    (SubmitRecoveryCode
        (fun _ _ => .ok ⟨"rf1", [⟨some ⟨"tokT"⟩, none⟩, ⟨none, some ⟨"sf1"⟩⟩]⟩)
        (fun _ _ _ => .ok ⟨"sf1"⟩) "f1" ⟨"123456", "newpass99"⟩).2 =
      [⟨"sf1", BuildPasswordSettingsBody "newpass99", "tokT"⟩] ∧
    SubmitRecoveryCode (fun _ _ => .ok ⟨"rf2", []⟩) (fun _ _ _ => .ok ⟨"sf1"⟩)
        "f1" ⟨"123456", "newpass99"⟩ =
      (.successOut ⟨"rf2", []⟩, []) :=
  ⟨(submitRecoveryCode_continuation_spec
      (fun _ _ => .ok ⟨"rf1", [⟨some ⟨"tokT"⟩, none⟩, ⟨none, some ⟨"sf1"⟩⟩]⟩)
      (fun _ _ _ => .ok ⟨"sf1"⟩) "f1" ⟨"123456", "newpass99"⟩
      ⟨"rf1", [⟨some ⟨"tokT"⟩, none⟩, ⟨none, some ⟨"sf1"⟩⟩]⟩ rfl rfl).1
      ⟨some ⟨"tokT"⟩, none⟩ ⟨none, some ⟨"sf1"⟩⟩ ⟨"tokT"⟩ ⟨"sf1"⟩
      (by decide) rfl (by decide) rfl,
   (submitRecoveryCode_continuation_spec (fun _ _ => .ok ⟨"rf2", []⟩)
      (fun _ _ _ => .ok ⟨"sf1"⟩) "f1" ⟨"123456", "newpass99"⟩
      ⟨"rf2", []⟩ rfl rfl).2 rfl rfl⟩

/-- C2: when the recovery-submit response carries exactly one settings-flow
action but no session-token action, the handler still issues the settings
submission, authenticated with the empty credential (and the settings client
then attaches no session-token header at all). -/
theorem submitRecoveryCode_missing_token_spec
    (updateRecoveryFlow : String → UpdateRecoveryFlowWithCodeMethod →
      Except Unit RecoveryFlow)
    (execute : String → UpdateSettingsFlowWithPasswordMethod → Option String →
      Except Unit SettingsFlow)
    (flowID : String) (input : RecoveryCodeInput) (flow : RecoveryFlow)
    (sa : ContinueWith) (sf : ContinueWithSettingsUiFlow)
    (hf : ValidateFlowID flowID = none)
    (hr : updateRecoveryFlow flowID
      (BuildCodeRecoveryBodySubmit input.code input.password) = .ok flow)
    (hsa : flow.continueWith.filter hasSettingsAction = [sa])
    (hsf : sa.continueWithSettingsUi = some sf)
    (hnt : flow.continueWith.filter hasSessionTokenAction = []) :
    (SubmitRecoveryCode updateRecoveryFlow execute flowID input).2 =
      [⟨sf.id, BuildPasswordSettingsBody input.password, ""⟩] ∧
    (∀ body : UpdateSettingsFlowWithPasswordMethod,
      UpdateSettingsFlow execute sf.id body "" = execute sf.id body none) := by
  have hne : 0 < flow.continueWith.length := by
    cases hcw : flow.continueWith with
    | nil => rw [hcw] at hsa; exact absurd hsa (by simp)
    | cons a r => simp [hcw]
  have htok : extractContinueSessionToken flow.continueWith = "" :=
    tokenStep_foldl_no_token flow.continueWith hnt ""
  have hcalls := processContinueWith_unique execute input.password
    (extractContinueSessionToken flow.continueWith) flow.continueWith sa sf hsa hsf
  constructor
  · rcases hp : processContinueWith execute input.password
        (extractContinueSessionToken flow.continueWith) flow.continueWith with ⟨calls, err⟩
    have hc : calls =
        [⟨sf.id, BuildPasswordSettingsBody input.password,
          extractContinueSessionToken flow.continueWith⟩] := by
      rw [← hcalls, hp]
    rw [htok] at hp hc
    cases err with
    | none => simp [SubmitRecoveryCode, hf, hr, hne, htok, hp, hc]
    | some e => simp [SubmitRecoveryCode, hf, hr, hne, htok, hp, hc]
  · intro body
    simp [UpdateSettingsFlow]

/-- Witness for C2: a response with a lone settings action and no token
grant submits with the empty credential. -/
theorem submitRecoveryCode_missing_token_spec_witness :
    (SubmitRecoveryCode (fun _ _ => .ok ⟨"rf1", [⟨none, some ⟨"sf1"⟩⟩]⟩)
        (fun _ _ _ => .ok ⟨"sf1"⟩) "f1" ⟨"123456", "newpass99"⟩).2 =
      [⟨"sf1", BuildPasswordSettingsBody "newpass99", ""⟩] :=
  (submitRecoveryCode_missing_token_spec (fun _ _ => .ok ⟨"rf1", [⟨none, some ⟨"sf1"⟩⟩]⟩)
    (fun _ _ _ => .ok ⟨"sf1"⟩) "f1" ⟨"123456", "newpass99"⟩
    ⟨"rf1", [⟨none, some ⟨"sf1"⟩⟩]⟩ ⟨none, some ⟨"sf1"⟩⟩ ⟨"sf1"⟩
    rfl rfl (by decide) rfl (by decide)).1
